import Mathlib

/-!
Verification development for the `pythonDataProcess` repository.

The repository has two components:
* `src/TushareStockData.py` — symbol resolution (`get_stock_code_by_name`),
  historical data fetch (`get_stock_data`) and CSV persistence (`save_to_csv`);
* `src/stockChartGenerator.py` — data normalization (`prepare_data`),
  chart rendering with a manual fallback (`generate_chart`, `_fallback_plot`),
  and a batch driver (`generate_multiple_charts`).

This file gives a shallow embedding of those functions and proves the frozen
claims about them.  The remote tushare API is modelled as an explicit
environment (`Remote`); pandas DataFrames are modelled as a structure of
column names, an index and rows of cells; Python exceptions are modelled by
`Except Err`; Python argument truthiness (`if not x`) is modelled by
`pyTruthy`.  External library behavior that the source leans on (pandas
`str.contains` with a plain pattern, `to_datetime`, stable sorting) is
modelled by concrete total functions documented at their definitions.
-/

/-- Errors raised by the embedded code.  The Python source raises `ValueError`
with distinct messages for the first three (the spec names them
`NotFoundError`, `InvalidArgument`, `SchemaError`); the remaining
constructors model `KeyError` / `TypeError` / `IndexError` / date-parse
failures that can escape from library calls. -/
inductive Err where
  | invalidArgument : Err
  | notFound (query : String) : Err
  | schemaError (missing : List String) : Err
  | dateError : Err
  | keyError (col : String) : Err
  | typeError : Err
  | indexError : Err
  | attributeError : Err
deriving DecidableEq

/-- Python truthiness of an optional string argument: `None` and `""` are
falsy (`if not stock_name` in the source). -/
def pyTruthy : Option String → Bool
  | none => false
  | some s => !s.data.isEmpty

/-- Python truthiness of a plain string (`if save_path:`). -/
def pyTruthyS (s : String) : Bool := !s.data.isEmpty

/-- Python `x if x else d` / `if not x: x = d` on an optional string. -/
def pyDefault (o : Option String) (d : String) : String :=
  match o with
  | none => d
  | some s => if s.data.isEmpty then d else s

/-- Python `a or b` on optional strings: returns `a` when truthy, else `b`. -/
def pyOrS (a b : Option String) : Option String :=
  if pyTruthy a then a else b

/-- Whether `pat` is an initial run of `hay` (character lists). -/
def leadsChars : List Char → List Char → Bool
  | [], _ => true
  | _ :: _, [] => false
  | a :: as, b :: bs => a == b && leadsChars as bs

/-- Whether `pat` occurs contiguously inside `hay` (character lists). -/
def withinChars (pat : List Char) : List Char → Bool
  | [] => pat.isEmpty
  | b :: bs => leadsChars pat (b :: bs) || withinChars pat bs

/-- Whether `pat` occurs as a substring of `hay`.  Models pandas
`Series.str.contains(pat, na=False)` for a pattern without regex
metacharacters, which is how the source uses it (stock names). -/
def strWithin (hay pat : String) : Bool := withinChars pat.data hay.data

/-- One row of the symbol directory returned by
`pro.stock_basic(exchange='', list_status='L', fields='ts_code,symbol,name,area,industry,list_date')`. -/
structure StockBasicRow where
  ts_code : String
  symbol : String
  name : String
  area : String
  industry : String
  list_date : String
deriving DecidableEq

/-- One row of the daily time series returned by `pro.daily`.  The Python
field `open` is a Lean keyword, so the four price fields carry a trailing
underscore.  Prices are modelled as rationals (no claim does float
arithmetic on them). -/
structure DailyRow where
  ts_code : String
  trade_date : String
  open_ : Rat
  high_ : Rat
  low_ : Rat
  close_ : Rat
  pre_close : Rat
  change : Rat
  pct_chg : Rat
  vol : Rat
  amount : Rat
deriving DecidableEq

/-- A daily row together with the value of the `stock_name` column that
`get_stock_data` may append (`none` models the column being absent). -/
structure AnnotRow where
  row : DailyRow
  stock_name : Option String
deriving DecidableEq

/-- A remote request issued by the embedded `TushareStockData` methods; used
to record the order of network calls. -/
inductive RemoteCall where
  | stockBasicAll : RemoteCall
  | daily (ts_code start_date end_date : String) : RemoteCall
  | stockBasicByCode (ts_code : String) : RemoteCall
deriving DecidableEq

/-- The remote tushare API, modelled as an environment: the symbol
directory, the daily-bars endpoint, the by-code name lookup
(`.error` models a network exception inside the `try` of lines 91-96),
and the current date (`datetime.now().strftime('%Y%m%d')`). -/
structure Remote where
  stock_basic_all : List StockBasicRow
  daily : String → String → String → List DailyRow
  stock_basic_by_code : String → Except Unit (List String)
  today : String

/-- `TushareStockData.get_stock_code_by_name`: exact-name filter over the
directory, falling back to a substring filter, returning the first match's
`ts_code`, raising when both filters are empty (source lines 21-45). -/
def get_stock_code_by_name (stock_list : List StockBasicRow) (stock_name : String) :
    Except Err String :=
  let result := stock_list.filter (fun r => r.name == stock_name)
  let result := if result.isEmpty
    then stock_list.filter (fun r => strWithin r.name stock_name)
    else result
  match result with
  | [] => .error (.notFound stock_name)
  | r :: _ => .ok r.ts_code

/-- Sort order used by `df.sort_values('trade_date')`: compare the
`trade_date` strings (8-digit dates compare chronologically). -/
def dailyLe (a b : DailyRow) : Prop := a.trade_date ≤ b.trade_date

instance : DecidableRel dailyLe :=
  fun a b => inferInstanceAs (Decidable (a.trade_date ≤ b.trade_date))

instance : IsTotal DailyRow dailyLe := ⟨fun a b => le_total a.trade_date b.trade_date⟩

instance : IsTrans DailyRow dailyLe := ⟨fun _ _ _ h1 h2 => le_trans h1 h2⟩

/-- The `ts_code` used for the daily request: the resolved name when a
truthy `stock_name` was passed, otherwise the given `stock_code`
(source lines 64-68). -/
def resolveArg (rm : Remote) (stock_name stock_code : Option String) : Except Err String :=
  if pyTruthy stock_name then
    get_stock_code_by_name rm.stock_basic_all (stock_name.getD "")
  else
    .ok (stock_code.getD "")

/-- The value written into the `stock_name` column (source lines 86-96):
the queried name when one was passed; otherwise the first name returned by
`stock_basic(ts_code=...)`, the bare `ts_code` if that lookup raises, and
no column at all if it returns an empty frame. -/
def annotValue (rm : Remote) (stock_name : Option String) (ts_code : String) : Option String :=
  if pyTruthy stock_name then stock_name
  else
    match rm.stock_basic_by_code ts_code with
    | .error _ => some ts_code
    | .ok [] => none
    | .ok (n :: _) => some n

/-- `TushareStockData.get_stock_data` (source lines 47-98), together with
the ordered list of remote requests it issues.  Steps: argument check,
name resolution, date defaulting, one `daily` request, empty short-circuit,
stable sort by `trade_date`, `stock_name` annotation. -/
def get_stock_data (rm : Remote) (stock_name stock_code start_date end_date : Option String) :
    Except Err (List AnnotRow) × List RemoteCall :=
  if !pyTruthy stock_name && !pyTruthy stock_code then
    (.error .invalidArgument, [])
  else
    let tr0 := if pyTruthy stock_name then [RemoteCall.stockBasicAll] else []
    match resolveArg rm stock_name stock_code with
    | .error e => (.error e, tr0)
    | .ok ts_code =>
      let sd := pyDefault start_date "20100101"
      let ed := pyDefault end_date rm.today
      let df := rm.daily ts_code sd ed
      let tr1 := tr0 ++ [RemoteCall.daily ts_code sd ed]
      if df.isEmpty then (.ok [], tr1)
      else
        let sorted := List.insertionSort dailyLe df
        let annot := annotValue rm stock_name ts_code
        let tr2 := tr1 ++ (if pyTruthy stock_name then [] else [RemoteCall.stockBasicByCode ts_code])
        (.ok (sorted.map fun r => ⟨r, annot⟩), tr2)

/-- Smallest `trade_date` of a list of annotated rows (`df['trade_date'].min()`). -/
def minDate (rows : List AnnotRow) : String :=
  match rows.map (fun a => a.row.trade_date) with
  | [] => ""
  | d :: ds => ds.foldl min d

/-- Largest `trade_date` of a list of annotated rows (`df['trade_date'].max()`). -/
def maxDate (rows : List AnnotRow) : String :=
  match rows.map (fun a => a.row.trade_date) with
  | [] => ""
  | d :: ds => ds.foldl max d

/-- `TushareStockData.save_to_csv` (source lines 100-138), with the file
write modelled by the returned path: `some p` means the frame was written
to `p`, `none` means no write happened and Python `None` was returned
(the empty-frame short-circuit at lines 112-114). -/
def save_to_csv (rows : List AnnotRow) (filename : Option String) (output_dir : String) :
    Option String :=
  if rows.isEmpty then none
  else
    let fn := match filename with
      | some f => if f.data.isEmpty then autoName rows else f
      | none => autoName rows
    let fn := if fn.endsWith ".csv" then fn else fn ++ ".csv"
    some (output_dir ++ "/" ++ fn)
where
  /-- Auto-generated file name `{stock_name}_{min}_{max}.csv` (lines 121-125). -/
  autoName (rows : List AnnotRow) : String :=
    let nm := match rows with
      | [] => "unknown"
      | a :: _ => match a.stock_name with
        | some n => n
        | none => "unknown"
    nm ++ "_" ++ minDate rows ++ "_" ++ maxDate rows ++ ".csv"

/-- A cell of a modelled pandas DataFrame: a string or a number. -/
inductive Val where
  | s (v : String)
  | n (v : Rat)
deriving DecidableEq

instance : Inhabited Val := ⟨Val.s ""⟩

/-- A pandas DataFrame, modelled as ordered column names, an index (kept as
strings: parsed dates render as `YYYY-MM-DD`, the default range index as
decimal numerals), rows of cells aligned with `cols`, and the dtype of the
index: `dtindex = true` means a DatetimeIndex (whose entries support
`strftime`), `false` any other index (range or plain strings, on which
`strftime` raises `AttributeError`). -/
structure DataFrame where
  cols : List String
  index : List String
  rows : List (List Val)
  dtindex : Bool
deriving DecidableEq

instance : Inhabited DataFrame := ⟨⟨[], [], [], false⟩⟩

/-- `entry.strftime('%Y-%m-%d')` on one index entry: defined (as the stored
`YYYY-MM-DD` rendering) only when the index is datetime-typed, raising
`AttributeError` otherwise, as `int`/`str` index entries do. -/
def strftimeE (isdt : Bool) (s : String) : Except Err String :=
  if isdt then .ok s else .error .attributeError

/-- The values of column `c` (positional lookup of the column name). -/
def getColVals (d : DataFrame) (c : String) : List Val :=
  d.rows.map (fun row => row.getD (d.cols.indexOf c) default)

/-- Column assignment `d[c] = vals`: overwrite in place when the column
exists, else append it as the last column. -/
def setCol (d : DataFrame) (c : String) (vals : List Val) : DataFrame :=
  if c ∈ d.cols then
    { d with rows := (d.rows.zip vals).map (fun p => p.1.set (d.cols.indexOf c) p.2) }
  else
    { d with cols := d.cols ++ [c],
             rows := (d.rows.zip vals).map (fun p => p.1 ++ [p.2]) }

/-- String rendering of a cell (used when a cell becomes an index entry). -/
def valStr : Val → String
  | .s v => v
  | .n q => toString q

/-- `d.set_index(c)`: the column's values become the index and the column is
removed from the frame.  The index dtype is left to the caller: the only
call site (`dateStep`) sets `dtindex := true` because the column was just
produced by `pd.to_datetime`. -/
def set_index (d : DataFrame) (c : String) : DataFrame :=
  let i := d.cols.indexOf c
  { cols := d.cols.eraseIdx i,
    index := (getColVals d c).map valStr,
    rows := d.rows.map (fun row => row.eraseIdx i),
    dtindex := d.dtindex }

/-- Whether a string is exactly eight decimal digits. -/
def all8Digits (s : String) : Bool := s.length == 8 && s.data.all Char.isDigit

/-- Rewrite an 8-digit `YYYYMMDD` string as `YYYY-MM-DD` (other shapes are
returned unchanged; `parseDateVal` only applies this to 8-digit strings). -/
def toIso (s : String) : String :=
  match s.data with
  | [y1, y2, y3, y4, m1, m2, d1, d2] => String.mk [y1, y2, y3, y4, '-', m1, m2, '-', d1, d2]
  | _ => s

/-- Whether a string already has the shape `dddd-dd-dd`. -/
def isIsoDate (s : String) : Bool :=
  match s.data with
  | [y1, y2, y3, y4, h1, m1, m2, h2, d1, d2] =>
    [y1, y2, y3, y4].all Char.isDigit && h1 == '-' && [m1, m2].all Char.isDigit &&
      h2 == '-' && [d1, d2].all Char.isDigit
  | _ => false

/-- Models the three-attempt date conversion of `prepare_data`
(source lines 86-96: `pd.to_datetime(col, format='%Y%m%d')`, then a free
parse, then `pd.to_datetime(str(x))` per value): an 8-digit string or
integer parses as `YYYY-MM-DD`, an already ISO-shaped string parses as
itself, anything else fails (pandas raises). -/
def parseDateVal : Val → Option String
  | .s v =>
    if all8Digits v then some (toIso v)
    else if isIsoDate v then some v
    else none
  | .n q =>
    if q.den == 1 && all8Digits (toString q.num) then some (toIso (toString q.num))
    else none

/-- The date-handling prefix of `prepare_data` (source lines 84-100): parse
the `trade_date` (else `Date`) column, store it as column `Date`, and make
it the index; frames with neither column are left alone. -/
def dateStep (d : DataFrame) : Except Err DataFrame :=
  if "trade_date" ∈ d.cols then
    match (getColVals d "trade_date").mapM parseDateVal with
    | some parsed =>
      .ok { set_index (setCol d "Date" (parsed.map Val.s)) "Date" with dtindex := true }
    | none => .error .dateError
  else if "Date" ∈ d.cols then
    match (getColVals d "Date").mapM parseDateVal with
    | some parsed =>
      .ok { set_index (setCol d "Date" (parsed.map Val.s)) "Date" with dtindex := true }
    | none => .error .dateError
  else .ok d

/-- The fixed synonym table `column_mapping` of the source (lines 103-110). -/
def column_mapping : List (String × String) :=
  [("open", "Open"), ("high", "High"), ("low", "Low"), ("close", "Close"),
   ("vol", "Volume"), ("volume", "Volume")]

/-- `df.rename(columns=column_mapping)` on one name. -/
def remapName (c : String) : String :=
  match column_mapping.find? (fun p => p.1 == c) with
  | some p => p.2
  | none => c

/-- ASCII lower-casing of one character (the column names the source
lower-cases are ASCII). -/
def lowerChar (c : Char) : Char :=
  match c with
  | 'A' => 'a' | 'B' => 'b' | 'C' => 'c' | 'D' => 'd' | 'E' => 'e' | 'F' => 'f'
  | 'G' => 'g' | 'H' => 'h' | 'I' => 'i' | 'J' => 'j' | 'K' => 'k' | 'L' => 'l'
  | 'M' => 'm' | 'N' => 'n' | 'O' => 'o' | 'P' => 'p' | 'Q' => 'q' | 'R' => 'r'
  | 'S' => 's' | 'T' => 't' | 'U' => 'u' | 'V' => 'v' | 'W' => 'w' | 'X' => 'x'
  | 'Y' => 'y' | 'Z' => 'z'
  | other => other

/-- ASCII lower-casing of a string (models `str.lower()` on column names). -/
def strLower (s : String) : String := String.mk (s.data.map lowerChar)

/-- `data.columns = data.columns.str.lower()` (source line 113). -/
def lowerStep (d : DataFrame) : DataFrame :=
  { d with cols := d.cols.map strLower }

/-- `data = data.rename(columns=column_mapping)` (source line 114). -/
def renameStep (d : DataFrame) : DataFrame :=
  { d with cols := d.cols.map remapName }

/-- The four required price columns (source line 117). -/
def required_columns : List String := ["Open", "High", "Low", "Close"]

/-- The canonical column names the renderer works with (the spec's
normalized-frame shape: the required price columns plus optional Volume). -/
def canonicalCols : List String := ["Open", "High", "Low", "Close", "Volume"]

/-- The required columns absent from the frame (source line 118). -/
def missingCols (d : DataFrame) : List String :=
  required_columns.filter (fun c => !(d.cols.contains c))

/-- The required-column check (source lines 117-120). -/
def checkStep (d : DataFrame) : Except Err DataFrame :=
  if missingCols d = [] then .ok d else .error (.schemaError (missingCols d))

/-- Sort order of `data.sort_index()`: compare index entries. -/
def idxLe (a b : String × List Val) : Prop := a.1 ≤ b.1

instance : DecidableRel idxLe :=
  fun a b => inferInstanceAs (Decidable (a.1 ≤ b.1))

instance : IsTotal (String × List Val) idxLe := ⟨fun a b => le_total a.1 b.1⟩

instance : IsTrans (String × List Val) idxLe := ⟨fun _ _ _ h1 h2 => le_trans h1 h2⟩

/-- `data = data.sort_index()` (source line 123): stably sort the
index/row pairs by index entry. -/
def sortStep (d : DataFrame) : DataFrame :=
  let sp := List.insertionSort idxLe (d.index.zip d.rows)
  { cols := d.cols, index := sp.map Prod.fst, rows := sp.map Prod.snd,
    dtindex := d.dtindex }

/-- `StockChartGenerator.prepare_data` (source lines 71-125): copy, date
step, lower-case and remap the column names, required-column check, sort by
index. -/
def prepare_data (df : DataFrame) : Except Err DataFrame := do
  let d1 ← dateStep df
  let d2 := renameStep (lowerStep d1)
  let d3 ← checkStep d2
  return sortStep d3

/-- `prepare_data` at the Python object level: the heap is a list of
frames, a reference is an index into it.  Line 82 (`data = df.copy()`)
allocates a fresh frame and every later statement writes only through
local rebindings of `data`, so the caller's frame is never written.  On
failure the partially processed copy is what was last materialised. -/
def prepare_data_heap (h : List DataFrame) (r : Nat) : List DataFrame × Except Err Nat :=
  let df := h.getD r default
  match dateStep df with
  | .error e => (h ++ [df], .error e)
  | .ok d1 =>
    let d2 := renameStep (lowerStep d1)
    match checkStep d2 with
    | .error e => (h ++ [d2], .error e)
    | .ok d3 => (h ++ [sortStep d3], .ok h.length)

/-- The keyword arguments handed to `mpf.plot` (source lines 166-182). -/
structure MpfParams where
  chartType : String
  volume : Bool
  style : String
  figsizeW : Nat
  figsizeH : Nat
  datetimeFormat : String
  xrotation : Nat
  showNontrading : Bool
  title : Option String
  extra : List (String × String)
deriving DecidableEq

/-- One `ax1.plot([i, i], [y0, y1], color=..., linewidth=...)` call of the
fallback renderer. -/
structure Seg where
  x : Nat
  y0 : Val
  y1 : Val
  color : String
  width : Rat
deriving DecidableEq

instance : Inhabited Seg := ⟨⟨0, default, default, "", 0⟩⟩

/-- The figure produced by `_fallback_plot`: the title, the candle
segments in drawing order, the x-axis tick labels (every n-th index entry
rendered with `strftime`), and the bar heights of the optional volume
subplot. -/
structure FallbackFig where
  title : String
  segs : List Seg
  xtickLabels : List String
  volBars : Option (List Val)
deriving DecidableEq

/-- The tick positions `range(0, len, n)` of the fallback renderer
(source lines 265-266), for `n ≥ 1`. -/
def tickIdxs (len n : Nat) : List Nat :=
  (List.range len).filter (fun i => i % n == 0)

/-- A rendered figure: either the delegate's own figure (opaque, recorded
with its inputs) or the manual fallback figure. -/
inductive Figure where
  | primary (data : DataFrame) (params : MpfParams)
  | fallback (f : FallbackFig)
deriving DecidableEq

/-- `row[c]` on a row of frame `d`: `KeyError` when the column is absent. -/
def getCellE (d : DataFrame) (row : List Val) (c : String) : Except Err Val :=
  if c ∈ d.cols then .ok (row.getD (d.cols.indexOf c) default) else .error (.keyError c)

/-- Python `a >= b` on two cells: defined on numbers, `TypeError` otherwise. -/
def valGeE : Val → Val → Except Err Bool
  | .n a, .n b => .ok (decide (b ≤ a))
  | _, _ => .error .typeError

/-- Whether the fallback renderer can process a row: the `Open` and `Close`
cells exist and are numeric (they are compared), and `Low` and `High`
cells exist.  This is the no-`KeyError`/no-`TypeError` precondition of the
per-row drawing loop. -/
def rowOHLCOkB (d : DataFrame) (row : List Val) : Bool :=
  (match getCellE d row "Open" with | .ok (.n _) => true | _ => false) &&
  (match getCellE d row "Close" with | .ok (.n _) => true | _ => false) &&
  (match getCellE d row "Low" with | .ok _ => true | _ => false) &&
  (match getCellE d row "High" with | .ok _ => true | _ => false)

/-- The two plot calls the fallback renderer makes for row `i`
(source lines 251-254): a thin black segment from `Low` to `High` and a
width-3 segment from `Open` to `Close`, red when `Close >= Open`, else
green. -/
def rowSegs (d : DataFrame) (i : Nat) (row : List Val) : Except Err (List Seg) := do
  let c ← getCellE d row "Close"
  let o ← getCellE d row "Open"
  let up ← valGeE c o
  let lo ← getCellE d row "Low"
  let hi ← getCellE d row "High"
  return [⟨i, lo, hi, "k", (8 : Rat) / 10⟩, ⟨i, o, c, if up then "r" else "g", 3⟩]

/-- `StockChartGenerator._fallback_plot` (source lines 235-282), reduced to
the drawn content: per-row segments, the x-tick labels
`data.index[i].strftime('%Y-%m-%d')` for every `n`-th position (lines
264-268, raising `AttributeError` when the index is not datetime-typed;
the volume subplot at lines 277-279 recomputes the same labels), and, when
`volume` is requested, the `Volume` column as bar heights (`KeyError` when
that column is absent). -/
def fallback_plot (d : DataFrame) (title : String) (volume : Bool) :
    Except Err FallbackFig := do
  let segLists ← d.rows.enum.mapM (fun p => rowSegs d p.1 p.2)
  let labels ← (tickIdxs d.rows.length (max 1 (d.rows.length / 10))).mapM
      (fun i => strftimeE d.dtindex (d.index.getD i ""))
  let vb ← if volume then
      if "Volume" ∈ d.cols then pure (some (getColVals d "Volume"))
      else throw (Err.keyError "Volume")
    else pure none
  return { title := title, segs := segLists.flatten, xtickLabels := labels, volBars := vb }

/-- The default-title derivation of `generate_chart` (source lines
156-164): an explicit title (even `""`) is kept; otherwise, when the input
frame has a `stock_name` column, the title is built from its first value
and the first and last index entries rendered with `strftime('%Y-%m-%d')`
(raising `IndexError` on
an empty frame, as `iloc[0]`/`index[0]` would, and `AttributeError` when
the prepared frame's index is not datetime-typed); otherwise the fixed
default. -/
def deriveTitle (title : Option String) (df chart_data : DataFrame) : Except Err String :=
  match title with
  | some t => .ok t
  | none =>
    if "stock_name" ∈ df.cols then
      match (getColVals df "stock_name").head?, chart_data.index.head?,
          chart_data.index.getLast? with
      | some nm, some sd, some ed => do
        let sds ← strftimeE chart_data.dtindex sd
        let eds ← strftimeE chart_data.dtindex ed
        return (valStr nm ++ " K线图 (" ++ sds ++ " 至 " ++ eds ++ ")")
      | _, _, _ => .error .indexError
    else .ok "K线图"

/-- Build the `plot_params` dictionary (source lines 166-182); the title
key is only set when the derived title is truthy. -/
def mkParams (chart_type : String) (volume : Bool) (style : String) (t : String)
    (extra : List (String × String)) : MpfParams :=
  { chartType := chart_type, volume := volume, style := style,
    figsizeW := 12, figsizeH := 8, datetimeFormat := "%Y-%m-%d",
    xrotation := 45, showNontrading := false,
    title := if pyTruthyS t then some t else none,
    extra := extra }

/-- `StockChartGenerator.generate_chart` on an in-memory frame (source
lines 127-233).  The mplfinance delegate is the parameter `mpf`: on `.ok`
the primary figure is returned, on `.error` the manual fallback is drawn
inside the `except` handler (line 190) and errors of the fallback itself
propagate.  The file write is modelled by the returned saved path
(`some p` iff the source would call `fig.savefig(p)`). -/
def generate_chart (mpf : DataFrame → MpfParams → Except String Unit)
    (df : DataFrame) (chart_type : String) (title : Option String) (volume : Bool)
    (style : String) (save_path : Option String) (extra : List (String × String)) :
    Except Err (Figure × Option String) := do
  let chart_data ← prepare_data df
  let t ← deriveTitle title df chart_data
  let params := mkParams chart_type volume style t extra
  let fig ← match mpf chart_data params with
    | .ok _ => pure (Figure.primary chart_data params)
    | .error _ => do
        let fb ← fallback_plot chart_data t volume
        pure (Figure.fallback fb)
  let saved := match save_path with
    | some p => if pyTruthyS p then some p else none
    | none => none
  return (fig, saved)

/-- Rebuild the tushare result frame that `generate_chart_from_stock`
passes to `generate_chart`: the `pro.daily` columns in order plus the
optional `stock_name` column, with the default range index. -/
def toDf (rows : List AnnotRow) : DataFrame :=
  let hasName := match rows with
    | [] => false
    | a :: _ => a.stock_name.isSome
  { cols := ["ts_code", "trade_date", "open", "high", "low", "close", "pre_close",
      "change", "pct_chg", "vol", "amount"] ++ (if hasName then ["stock_name"] else []),
    index := (List.range rows.length).map (fun i => toString i),
    rows := rows.map (fun a =>
      [Val.s a.row.ts_code, Val.s a.row.trade_date, Val.n a.row.open_, Val.n a.row.high_,
       Val.n a.row.low_, Val.n a.row.close_, Val.n a.row.pre_close, Val.n a.row.change,
       Val.n a.row.pct_chg, Val.n a.row.vol, Val.n a.row.amount]
      ++ (match a.stock_name with | some n => [Val.s n] | none => [])),
    dtindex := false }

/-- `StockChartGenerator.generate_chart_from_stock` (source lines 284-349):
fetch, short-circuit on an empty frame (returning a `None` figure, not an
error), derive the output file name, render and save. -/
def generate_chart_from_stock (rm : Remote) (mpf : DataFrame → MpfParams → Except String Unit)
    (stock_name stock_code start_date end_date : Option String) (chart_type : String)
    (title : Option String) (volume : Bool) (style : String) (output_dir : String)
    (filename : Option String) (extra : List (String × String)) :
    Except Err (Option Figure × List AnnotRow × Option String) := do
  let df ← (get_stock_data rm stock_name stock_code start_date end_date).1
  if df.isEmpty then return (none, df, none)
  else
    let fn := match filename with
      | some f => f
      | none =>
        let sns := (pyOrS (pyOrS stock_name stock_code) (some "unknown")).getD "unknown"
        sns ++ "_" ++ chart_type ++ "_" ++ pyDefault start_date "20100101" ++ "_" ++
          pyDefault end_date rm.today ++ ".png"
    let save_path := output_dir ++ "/" ++ fn
    let (fig, saved) ← generate_chart mpf (toDf df) chart_type title volume style
      (some save_path) extra
    return (some fig, df, saved)

/-- One element of the `stock_list` argument of the batch driver: a plain
name string or a dictionary with optional name/code/date keys. -/
inductive StockItem where
  | name (s : String)
  | dict (stock_name stock_code start_date end_date : Option String)
deriving DecidableEq

/-- The four fields the batch driver extracts from a list element
(source lines 367-377). -/
def itemFields : StockItem → Option String × Option String × Option String × Option String
  | .name s => (some s, none, none, none)
  | .dict n c sd ed => (n, c, sd, ed)

/-- One entry of the batch driver's results list: a success record
`{stock_name, chart_type, data_rows, saved_path}` or an error record
`{stock_name, chart_type, error}`. -/
inductive BatchResult where
  | success (stock_name : Option String) (chart_type : String) (data_rows : Nat)
      (saved_path : String) : BatchResult
  | failure (stock_name : Option String) (chart_type : String) (error : Err) : BatchResult
deriving DecidableEq

/-- `StockChartGenerator.generate_multiple_charts` (source lines 351-409):
nested loops (outer symbols, inner chart types); a per-item exception is
caught and recorded as an error entry; a successful render is recorded only
when both the figure and the saved path are truthy. -/
def generate_multiple_charts (rm : Remote) (mpf : DataFrame → MpfParams → Except String Unit)
    (stock_list : List StockItem) (chart_types : List String) (output_dir : String)
    (extra : List (String × String)) : List BatchResult :=
  stock_list.flatMap (fun stock =>
    let f := itemFields stock
    chart_types.filterMap (fun ct =>
      match generate_chart_from_stock rm mpf f.1 f.2.1 f.2.2.1 f.2.2.2 ct none true
          "yahoo" output_dir none extra with
      | .ok (fig, df, saved) =>
        if fig.isSome && pyTruthy saved then
          some (.success (pyOrS f.1 f.2.1) ct df.length (saved.getD ""))
        else none
      | .error e => some (.failure (pyOrS f.1 f.2.1) ct e)))

/-! ### Helper lemmas -/

theorem head?_filter {α : Type} (p : α → Bool) : ∀ l : List α, (l.filter p).head? = l.find? p
  | [] => rfl
  | a :: t => by
    by_cases h : p a
    · simp [List.filter_cons, h, List.find?_cons_of_pos, head?_filter p t]
    · simp [List.filter_cons, h, List.find?_cons_of_neg, head?_filter p t]

theorem map_id_of_mem {α : Type} {f : α → α} : ∀ {l : List α}, (∀ x ∈ l, f x = x) → l.map f = l
  | [], _ => rfl
  | a :: t, h => by
    rw [List.map_cons, h a (List.mem_cons_self a t),
      map_id_of_mem (fun x hx => h x (List.mem_cons_of_mem a hx))]

theorem zip_map_fst_snd {α β : Type} : ∀ l : List (α × β), (l.map Prod.fst).zip (l.map Prod.snd) = l
  | [] => rfl
  | a :: t => by simp [zip_map_fst_snd t]

theorem mapM_option_of_forall {α β : Type} {f : α → Option β} {g : α → β} :
    ∀ {l : List α}, (∀ x ∈ l, f x = some (g x)) → l.mapM f = some (l.map g)
  | [], _ => rfl
  | a :: t, h => by
    rw [List.mapM_cons, h a (List.mem_cons_self a t),
      mapM_option_of_forall (fun x hx => h x (List.mem_cons_of_mem a hx))]
    rfl

theorem mapM_except_of_forall {ε α β : Type} {f : α → Except ε β} {g : α → β} :
    ∀ {l : List α}, (∀ x ∈ l, f x = .ok (g x)) → l.mapM f = .ok (l.map g)
  | [], _ => rfl
  | a :: t, h => by
    rw [List.mapM_cons, h a (List.mem_cons_self a t),
      mapM_except_of_forall (fun x hx => h x (List.mem_cons_of_mem a hx))]
    rfl

theorem mapM_except_exists {ε α β : Type} {f : α → Except ε β} :
    ∀ {l : List α}, (∀ x ∈ l, ∃ y, f x = .ok y) →
      ∃ ys, l.mapM f = .ok ys ∧ List.Forall₂ (fun x y => f x = .ok y) l ys
  | [], _ => ⟨[], rfl, List.Forall₂.nil⟩
  | a :: t, h => by
    obtain ⟨y, hy⟩ := h a (List.mem_cons_self a t)
    obtain ⟨ys, hys, hall⟩ :=
      mapM_except_exists (fun x hx => h x (List.mem_cons_of_mem a hx))
    refine ⟨y :: ys, ?_, List.Forall₂.cons hy hall⟩
    rw [List.mapM_cons, hy, hys]
    rfl

theorem bind_ok_E {ε α β : Type} (a : α) (f : α → Except ε β) :
    (Except.ok a >>= f) = f a := rfl

theorem bind_error_E {ε α β : Type} (e : ε) (f : α → Except ε β) :
    ((Except.error e : Except ε α) >>= f) = Except.error e := rfl

theorem pure_E {ε α : Type} (a : α) : (pure a : Except ε α) = Except.ok a := rfl

theorem get_stock_code_by_name_error {dir : List StockBasicRow} {q : String} {e : Err}
    (h : get_stock_code_by_name dir q = .error e) : e = .notFound q := by
  unfold get_stock_code_by_name at h
  cases hf : dir.filter (fun r => r.name == q) with
  | nil =>
    rw [hf] at h
    cases hg : dir.filter (fun r => strWithin r.name q) with
    | nil =>
      rw [hg] at h
      simp only [List.isEmpty_nil, if_pos] at h
      exact (Except.error.injEq _ _).mp h.symm
    | cons a t =>
      rw [hg] at h
      simp at h
  | cons a t =>
    rw [hf] at h
    simp at h

theorem prepare_data_heap_shape (h : List DataFrame) (r : Nat) :
    ∃ x, (prepare_data_heap h r).1 = h ++ [x] ∧
      ∀ s, (prepare_data_heap h r).2 = .ok s → s = h.length := by
  simp only [prepare_data_heap]
  cases dateStep (h.getD r default) with
  | error e =>
    dsimp only
    exact ⟨_, rfl, by intro s hs; cases hs⟩
  | ok d1 =>
    dsimp only
    cases checkStep (renameStep (lowerStep d1)) with
    | error e =>
      dsimp only
      exact ⟨_, rfl, by intro s hs; cases hs⟩
    | ok d3 =>
      dsimp only
      exact ⟨_, rfl, by intro s hs; cases hs; rfl⟩

/-! ### C7: missing both identifiers fails fast with InvalidArgument -/

/-- C7: when neither a (truthy) stock name nor a ticker code is supplied,
`get_stock_data` returns `InvalidArgument` and its remote-call trace is
empty, i.e. it fails before issuing any remote request, for every remote
environment. -/
theorem fetch_no_args_invalidArgument_no_remote_calls (rm : Remote)
    (stock_name stock_code start_date end_date : Option String)
    (hn : pyTruthy stock_name = false) (hc : pyTruthy stock_code = false) :
    get_stock_data rm stock_name stock_code start_date end_date =
      (.error .invalidArgument, []) := by
  unfold get_stock_data
  simp [hn, hc]

/-- Witness for C7 at a concrete remote and the falsy arguments `None` and `""`. -/
theorem fetch_no_args_invalidArgument_no_remote_calls_witness :
    get_stock_data ⟨[], fun _ _ _ => [], fun _ => .ok [], "20251012"⟩
      none (some "") none none = (.error .invalidArgument, []) :=
  fetch_no_args_invalidArgument_no_remote_calls _ none (some "") none none
    (by decide) (by decide)

/-! ### C1: exact match, then first substring match, else NotFoundError -/

/-- C1: for every directory and queried name, `get_stock_code_by_name`
returns the ticker of the first exact-name match when one exists; with no
exact match it returns the ticker of the first entry whose display name
contains the query as a substring; and it fails with `NotFoundError` when
both strategies find nothing. -/
theorem resolve_exact_then_fuzzy_then_notFound (dir : List StockBasicRow) (q : String) :
    (∀ e, dir.find? (fun r => r.name == q) = some e →
      get_stock_code_by_name dir q = .ok e.ts_code) ∧
    (dir.find? (fun r => r.name == q) = none →
      ∀ e, dir.find? (fun r => strWithin r.name q) = some e →
        get_stock_code_by_name dir q = .ok e.ts_code) ∧
    (dir.find? (fun r => r.name == q) = none →
      dir.find? (fun r => strWithin r.name q) = none →
        get_stock_code_by_name dir q = .error (.notFound q)) := by
  refine ⟨?_, ?_, ?_⟩
  · intro e he
    have h1 : (dir.filter (fun r => r.name == q)).head? = some e := by
      rw [head?_filter]; exact he
    cases hf : dir.filter (fun r => r.name == q) with
    | nil => rw [hf] at h1; simp at h1
    | cons a t =>
      rw [hf] at h1
      simp only [List.head?_cons, Option.some.injEq] at h1
      simp [get_stock_code_by_name, hf, h1]
  · intro hnone e he
    have hf : dir.filter (fun r => r.name == q) = [] := by
      have := head?_filter (fun r => r.name == q) dir
      rw [hnone] at this
      exact List.head?_eq_none_iff.mp this
    have h1 : (dir.filter (fun r => strWithin r.name q)).head? = some e := by
      rw [head?_filter]; exact he
    cases hg : dir.filter (fun r => strWithin r.name q) with
    | nil => rw [hg] at h1; simp at h1
    | cons a t =>
      rw [hg] at h1
      simp only [List.head?_cons, Option.some.injEq] at h1
      simp [get_stock_code_by_name, hf, hg, h1]
  · intro hnone hfz
    have hf : dir.filter (fun r => r.name == q) = [] := by
      have := head?_filter (fun r => r.name == q) dir
      rw [hnone] at this
      exact List.head?_eq_none_iff.mp this
    have hg : dir.filter (fun r => strWithin r.name q) = [] := by
      have := head?_filter (fun r => strWithin r.name q) dir
      rw [hfz] at this
      exact List.head?_eq_none_iff.mp this
    simp [get_stock_code_by_name, hf, hg]

/-- Witness for C1: a two-entry directory exercising the exact branch, the
substring branch and the failure branch of the theorem. -/
theorem resolve_exact_then_fuzzy_then_notFound_witness :
    get_stock_code_by_name
        [⟨"600000.SH", "600000", "Alpha Bank", "", "", ""⟩,
         ⟨"600519.SH", "600519", "Alphabet Wine", "", "", ""⟩] "Alpha Bank" =
      .ok "600000.SH" ∧
    get_stock_code_by_name
        [⟨"600000.SH", "600000", "Alpha Bank", "", "", ""⟩,
         ⟨"600519.SH", "600519", "Alphabet Wine", "", "", ""⟩] "Wine" =
      .ok "600519.SH" ∧
    get_stock_code_by_name
        [⟨"600000.SH", "600000", "Alpha Bank", "", "", ""⟩,
         ⟨"600519.SH", "600519", "Alphabet Wine", "", "", ""⟩] "Zeta" =
      .error (.notFound "Zeta") := by
  refine ⟨?_, ?_, ?_⟩
  · exact (resolve_exact_then_fuzzy_then_notFound
      [⟨"600000.SH", "600000", "Alpha Bank", "", "", ""⟩,
       ⟨"600519.SH", "600519", "Alphabet Wine", "", "", ""⟩] "Alpha Bank").1
      ⟨"600000.SH", "600000", "Alpha Bank", "", "", ""⟩ (by decide)
  · exact (resolve_exact_then_fuzzy_then_notFound
      [⟨"600000.SH", "600000", "Alpha Bank", "", "", ""⟩,
       ⟨"600519.SH", "600519", "Alphabet Wine", "", "", ""⟩] "Wine").2.1 (by decide)
      ⟨"600519.SH", "600519", "Alphabet Wine", "", "", ""⟩ (by decide)
  · exact (resolve_exact_then_fuzzy_then_notFound
      [⟨"600000.SH", "600000", "Alpha Bank", "", "", ""⟩,
       ⟨"600519.SH", "600519", "Alphabet Wine", "", "", ""⟩] "Zeta").2.2
      (by decide) (by decide)

/-! ### C4: empty remote result is not an error; persisting it is a no-op -/

/-- C4: whenever the remote `daily` endpoint has no rows for the requested
range, `get_stock_data` returns an empty result instead of raising, and
`save_to_csv` on that empty result performs no file write and returns
nothing. -/
theorem fetch_empty_ok_and_persist_noop (rm : Remote)
    (stock_name stock_code start_date end_date filename : Option String)
    (output_dir : String) (c : String)
    (hargs : (pyTruthy stock_name || pyTruthy stock_code) = true)
    (hres : resolveArg rm stock_name stock_code = .ok c)
    (hempty : rm.daily c (pyDefault start_date "20100101") (pyDefault end_date rm.today) = []) :
    (get_stock_data rm stock_name stock_code start_date end_date).1 = .ok [] ∧
    save_to_csv [] filename output_dir = none := by
  constructor
  · unfold get_stock_data
    have hor : (!pyTruthy stock_name && !pyTruthy stock_code) = false := by
      cases h1 : pyTruthy stock_name <;> cases h2 : pyTruthy stock_code <;>
        simp_all
    simp [hor, hres, hempty]
  · rfl

/-- Witness for C4: the spec scenario, a fetch of ticker `000001.SZ` over
2023 against a remote source with zero matching rows. -/
theorem fetch_empty_ok_and_persist_noop_witness :
    (get_stock_data ⟨[], fun _ _ _ => [], fun _ => .ok [], "20251012"⟩
        none (some "000001.SZ") (some "20230101") (some "20231231")).1 = .ok [] ∧
    save_to_csv [] none "stock_data" = none :=
  fetch_empty_ok_and_persist_noop _ none (some "000001.SZ") (some "20230101")
    (some "20231231") none "stock_data" "000001.SZ" (by decide) (by rfl) (by rfl)

/-! ### C10 (corrected): name precedence, code ignored, but fetch may still raise -/

/-- Counterexample to C10 as stated: with both a stock name and a ticker
code supplied, `get_stock_data` can still raise, because the name takes
precedence and its resolution fails with `NotFoundError` when the
directory does not match it. -/
theorem fetch_both_args_can_raise_cex :
    (get_stock_data ⟨[], fun _ _ _ => [], fun _ => .ok [], "20251012"⟩
      (some "X") (some "000001.SZ") none none).1 = .error (.notFound "X") := by
  rfl

/-- C10 (amended): when a truthy stock name is supplied, it takes
precedence: the call behaves exactly as if no ticker code had been passed
(the code is ignored), and the call never fails with `InvalidArgument` —
though name resolution itself may still raise `NotFoundError`. -/
theorem fetch_name_precedence_code_ignored (rm : Remote)
    (stock_name stock_code start_date end_date : Option String)
    (hn : pyTruthy stock_name = true) :
    get_stock_data rm stock_name stock_code start_date end_date =
      get_stock_data rm stock_name none start_date end_date ∧
    (get_stock_data rm stock_name stock_code start_date end_date).1 ≠
      .error .invalidArgument := by
  constructor
  · have hres : resolveArg rm stock_name stock_code = resolveArg rm stock_name none := by
      unfold resolveArg
      rw [if_pos hn, if_pos hn]
    unfold get_stock_data
    rw [hres]
    simp [hn]
  · unfold get_stock_data
    simp only [hn, Bool.not_true, Bool.false_and, Bool.false_eq_true, if_false]
    cases hres : resolveArg rm stock_name stock_code with
    | error e =>
      have he : e = .notFound (stock_name.getD "") := by
        apply @get_stock_code_by_name_error rm.stock_basic_all (stock_name.getD "") e
        rw [← hres]
        unfold resolveArg
        rw [if_pos hn]
      simp [he]
    | ok c =>
      dsimp only
      split
      · simp
      · simp

/-- Witness for C10's amended theorem: a directory where the name resolves;
the supplied code `999999.SZ` is ignored in favor of the name. -/
theorem fetch_name_precedence_code_ignored_witness :
    get_stock_data
        ⟨[⟨"600000.SH", "600000", "Alpha Bank", "", "", ""⟩],
         fun _ _ _ => [], fun _ => .ok [], "20251012"⟩
        (some "Alpha Bank") (some "999999.SZ") none none =
      get_stock_data
        ⟨[⟨"600000.SH", "600000", "Alpha Bank", "", "", ""⟩],
         fun _ _ _ => [], fun _ => .ok [], "20251012"⟩
        (some "Alpha Bank") none none none ∧
    (get_stock_data
        ⟨[⟨"600000.SH", "600000", "Alpha Bank", "", "", ""⟩],
         fun _ _ _ => [], fun _ => .ok [], "20251012"⟩
        (some "Alpha Bank") (some "999999.SZ") none none).1 ≠
      .error .invalidArgument :=
  fetch_name_precedence_code_ignored _ (some "Alpha Bank") (some "999999.SZ")
    none none (by decide)

/-! ### C9: normalization operates on a copy and leaves the input frame alone -/

/-- C9: `prepare_data` at the object level returns a freshly allocated
frame and never writes through the caller's reference: the original heap
prefix is untouched, the caller's frame reads back unchanged, and the
returned reference is distinct from the argument reference. -/
theorem normalize_leaves_input_unchanged (h : List DataFrame) (r : Nat)
    (hr : r < h.length) :
    (prepare_data_heap h r).1.take h.length = h ∧
    (prepare_data_heap h r).1.getD r default = h.getD r default ∧
    (∀ s, (prepare_data_heap h r).2 = .ok s → s ≠ r) := by
  obtain ⟨x, hx, hs⟩ := prepare_data_heap_shape h r
  rw [hx]
  refine ⟨List.take_left _ _, List.getD_append _ _ _ _ hr, ?_⟩
  intro s h2
  have := hs s h2
  omega

/-- Witness for C9 at a concrete one-frame heap. -/
theorem normalize_leaves_input_unchanged_witness :
    (prepare_data_heap
        [⟨["Open", "High", "Low", "Close"], ["7"], [[.n 1, .n 2, .n 0, .n 1]], false⟩] 0).1.take 1 =
      [⟨["Open", "High", "Low", "Close"], ["7"], [[.n 1, .n 2, .n 0, .n 1]], false⟩] ∧
    (prepare_data_heap
        [⟨["Open", "High", "Low", "Close"], ["7"], [[.n 1, .n 2, .n 0, .n 1]], false⟩] 0).1.getD 0 default =
      ([⟨["Open", "High", "Low", "Close"], ["7"], [[.n 1, .n 2, .n 0, .n 1]], false⟩] : List DataFrame).getD 0 default ∧
    (∀ s, (prepare_data_heap
        [⟨["Open", "High", "Low", "Close"], ["7"], [[.n 1, .n 2, .n 0, .n 1]], false⟩] 0).2 = .ok s → s ≠ 0) :=
  normalize_leaves_input_unchanged
    [⟨["Open", "High", "Low", "Close"], ["7"], [[.n 1, .n 2, .n 0, .n 1]], false⟩] 0 (by decide)

/-! ### C3: missing required price columns raise SchemaError -/

/-- C3: after the date step, `prepare_data` lower-cases the column names,
remaps them through the fixed synonym table, and raises `SchemaError`
listing the absent columns whenever any of the four required price columns
is missing; in particular a frame lacking `Close` after remapping raises
`SchemaError` with `Close` among the missing columns. -/
theorem normalize_missing_required_raises_schemaError (df d1 : DataFrame)
    (hd : dateStep df = .ok d1) :
    (missingCols (renameStep (lowerStep d1)) ≠ [] →
      prepare_data df = .error (.schemaError (missingCols (renameStep (lowerStep d1))))) ∧
    ("Close" ∉ (renameStep (lowerStep d1)).cols →
      ∃ m, prepare_data df = .error (.schemaError m) ∧ "Close" ∈ m) := by
  have hbody : prepare_data df =
      (checkStep (renameStep (lowerStep d1))).bind (fun d3 => .ok (sortStep d3)) := by
    unfold prepare_data
    rw [hd]
    rfl
  constructor
  · intro hm
    rw [hbody]
    unfold checkStep
    rw [if_neg hm]
    rfl
  · intro hcl
    have hm : "Close" ∈ missingCols (renameStep (lowerStep d1)) := by
      unfold missingCols required_columns
      simp only [List.mem_filter, Bool.not_eq_eq_eq_not, Bool.not_true]
      refine ⟨by simp, ?_⟩
      simpa using hcl
    refine ⟨_, ?_, hm⟩
    rw [hbody]
    unfold checkStep
    rw [if_neg (by intro h0; rw [h0] at hm; simp at hm)]
    rfl

/-- Witness for C3: a frame with `trade_date`, `open`, `high`, `low` but no
close column raises `SchemaError` mentioning `Close`. -/
theorem normalize_missing_required_raises_schemaError_witness :
    ∃ m, prepare_data
        ⟨["trade_date", "open", "high", "low"], ["0"],
         [[.s "20230101", .n 1, .n 2, .n (1/2)]], false⟩ = .error (.schemaError m) ∧
      "Close" ∈ m :=
  (normalize_missing_required_raises_schemaError _ _ (by rfl)).2 (by decide)

/-! ### C2 (corrected): sortedness and ticker sharing hold, but the
annotation is the queried name, not the directory display name -/

/-- Counterexample to C2 as stated: the query `AB` resolves by substring
match to ticker `T1.SZ`, whose directory display name is `ABC`; the fetched
row is annotated with the query `AB`, not with the display name `ABC`. -/
theorem fetch_annotates_query_not_display_name_cex :
    get_stock_code_by_name [⟨"T1.SZ", "T1", "ABC", "", "", ""⟩] "AB" = .ok "T1.SZ" ∧
    (([⟨"T1.SZ", "T1", "ABC", "", "", ""⟩] : List StockBasicRow).find?
      (fun r => r.ts_code == "T1.SZ")).map (fun r => r.name) = some "ABC" ∧
    (get_stock_data
        ⟨[⟨"T1.SZ", "T1", "ABC", "", "", ""⟩],
         fun _ _ _ => [⟨"T1.SZ", "20230103", 1, 2, 1, 2, 1, 0, 0, 100, 1000⟩],
         fun _ => .ok ["ABC"], "20251012"⟩
        (some "AB") none none none).1 =
      .ok [⟨⟨"T1.SZ", "20230103", 1, 2, 1, 2, 1, 0, 0, 100, 1000⟩, some "AB"⟩] ∧
    some "AB" ≠ some "ABC" := by
  refine ⟨by rfl, by rfl, by rfl, by decide⟩

/-- C2 (amended): for every fetch whose remote result is non-empty, with
the remote returning rows of the requested ticker with pairwise-distinct
dates, the returned rows are sorted strictly ascending by date and all
share the resolved ticker; every row carries the same `stock_name`
annotation, which is the queried name when a name was supplied and the
result of the display-name lookup of the ticker otherwise — not, in
general, the directory display name of the resolved ticker. -/
theorem fetch_sorted_shares_ticker_annotated (rm : Remote)
    (stock_name stock_code start_date end_date : Option String) (c : String)
    (hargs : (pyTruthy stock_name || pyTruthy stock_code) = true)
    (hres : resolveArg rm stock_name stock_code = .ok c)
    (hne : rm.daily c (pyDefault start_date "20100101") (pyDefault end_date rm.today) ≠ [])
    (htick : ∀ r ∈ rm.daily c (pyDefault start_date "20100101") (pyDefault end_date rm.today),
      r.ts_code = c)
    (hdist : (rm.daily c (pyDefault start_date "20100101")
        (pyDefault end_date rm.today)).Pairwise
      (fun a b => a.trade_date ≠ b.trade_date)) :
    ∃ l, (get_stock_data rm stock_name stock_code start_date end_date).1 = .ok l ∧
      l ≠ [] ∧
      l.Pairwise (fun a b => a.row.trade_date < b.row.trade_date) ∧
      (∀ x ∈ l, x.row.ts_code = c) ∧
      (∀ x ∈ l, x.stock_name = annotValue rm stock_name c) := by
  have hor : (!pyTruthy stock_name && !pyTruthy stock_code) = false := by
    cases h1 : pyTruthy stock_name <;> cases h2 : pyTruthy stock_code <;> simp_all
  have hmain : (get_stock_data rm stock_name stock_code start_date end_date).1 =
      .ok ((List.insertionSort dailyLe
          (rm.daily c (pyDefault start_date "20100101") (pyDefault end_date rm.today))).map
        fun r => ⟨r, annotValue rm stock_name c⟩) := by
    unfold get_stock_data
    simp [hor, hres, hne]
  have hperm : List.Perm
      (List.insertionSort dailyLe
        (rm.daily c (pyDefault start_date "20100101") (pyDefault end_date rm.today)))
      (rm.daily c (pyDefault start_date "20100101") (pyDefault end_date rm.today)) :=
    List.perm_insertionSort dailyLe _
  refine ⟨_, hmain, ?_, ?_, ?_, ?_⟩
  · simp only [ne_eq, List.map_eq_nil_iff]
    intro h0
    rw [h0] at hperm
    exact hne (List.Perm.nil_eq hperm).symm
  · rw [List.pairwise_map]
    have hle : (List.insertionSort dailyLe
        (rm.daily c (pyDefault start_date "20100101") (pyDefault end_date rm.today))).Pairwise
          dailyLe :=
      List.sorted_insertionSort dailyLe _
    have hne2 : (List.insertionSort dailyLe
        (rm.daily c (pyDefault start_date "20100101") (pyDefault end_date rm.today))).Pairwise
          (fun a b => a.trade_date ≠ b.trade_date) :=
      (List.Perm.pairwise_iff (by intro a b hab; exact Ne.symm hab) hperm).mpr hdist
    exact (hle.and hne2).imp (fun h => lt_of_le_of_ne h.1 h.2)
  · intro x hx
    obtain ⟨r, hr, hxeq⟩ := List.mem_map.mp hx
    subst hxeq
    exact htick r (hperm.subset hr)
  · intro x hx
    obtain ⟨r, hr, hxeq⟩ := List.mem_map.mp hx
    subst hxeq
    rfl

/-- Witness for C2's amended theorem: a name fetch returning two rows out
of order from the remote; they come back sorted, sharing the ticker, each
annotated with the queried name. -/
theorem fetch_sorted_shares_ticker_annotated_witness :
    ∃ l, (get_stock_data
        ⟨[⟨"600000.SH", "600000", "Alpha Bank", "", "", ""⟩],
         fun _ _ _ => [⟨"600000.SH", "20230104", 1, 2, 1, 2, 1, 0, 0, 10, 100⟩,
                       ⟨"600000.SH", "20230103", 1, 2, 1, 2, 1, 0, 0, 10, 100⟩],
         fun _ => .ok ["Alpha Bank"], "20251012"⟩
        (some "Alpha Bank") none (some "20230101") (some "20231231")).1 = .ok l ∧
      l ≠ [] ∧
      l.Pairwise (fun a b => a.row.trade_date < b.row.trade_date) ∧
      (∀ x ∈ l, x.row.ts_code = "600000.SH") ∧
      (∀ x ∈ l, x.stock_name = annotValue
        ⟨[⟨"600000.SH", "600000", "Alpha Bank", "", "", ""⟩],
         fun _ _ _ => [⟨"600000.SH", "20230104", 1, 2, 1, 2, 1, 0, 0, 10, 100⟩,
                       ⟨"600000.SH", "20230103", 1, 2, 1, 2, 1, 0, 0, 10, 100⟩],
         fun _ => .ok ["Alpha Bank"], "20251012"⟩
        (some "Alpha Bank") "600000.SH") :=
  fetch_sorted_shares_ticker_annotated _ (some "Alpha Bank") none (some "20230101")
    (some "20231231") "600000.SH" (by decide) (by rfl) (by decide) (by decide) (by decide)

/-! ### C6: normalization is idempotent on canonically named frames -/

theorem canon_fix : ∀ c ∈ canonicalCols, remapName (strLower c) = c := by decide

theorem sortStep_idem (d : DataFrame) : sortStep (sortStep d) = sortStep d := by
  unfold sortStep
  dsimp only
  rw [zip_map_fst_snd, List.Sorted.insertionSort_eq (List.sorted_insertionSort idxLe _)]

theorem prepare_data_canonical (df : DataFrame)
    (hcanon : ∀ c ∈ df.cols, c ∈ canonicalCols)
    (hreq : missingCols df = []) :
    prepare_data df = .ok (sortStep df) := by
  have htd : "trade_date" ∉ df.cols := fun h => by
    have h2 := hcanon _ h
    revert h2
    decide
  have hdt : "Date" ∉ df.cols := fun h => by
    have h2 := hcanon _ h
    revert h2
    decide
  have hds : dateStep df = .ok df := by
    unfold dateStep
    rw [if_neg htd, if_neg hdt]
  have hrl : renameStep (lowerStep df) = df := by
    unfold renameStep lowerStep
    cases df with
    | mk cols index rows dtindex =>
      simp only [List.map_map]
      congr 1
      exact map_id_of_mem (fun c hc => canon_fix c (hcanon c hc))
  have hchk : checkStep df = .ok df := by
    unfold checkStep
    rw [if_pos hreq]
  have hbody : prepare_data df = (checkStep (renameStep (lowerStep df))).bind
      (fun d3 => .ok (sortStep d3)) := by
    unfold prepare_data
    rw [hds]
    rfl
  rw [hbody, hrl, hchk]
  rfl

/-- C6: on a frame whose column names are already canonical (the four
price columns present, every column named among Open/High/Low/Close/Volume),
`prepare_data` succeeds, and applying it to its own output reproduces that
output unchanged. -/
theorem normalize_idempotent_on_canonical (df : DataFrame)
    (hcanon : ∀ c ∈ df.cols, c ∈ canonicalCols)
    (hreq : missingCols df = []) :
    ∃ out, prepare_data df = .ok out ∧ prepare_data out = .ok out := by
  refine ⟨sortStep df, prepare_data_canonical df hcanon hreq, ?_⟩
  have h2 : prepare_data (sortStep df) = .ok (sortStep (sortStep df)) :=
    prepare_data_canonical (sortStep df) (fun c hc => hcanon c hc) hreq
  rw [h2, sortStep_idem]

/-- Witness for C6 at a concrete canonical frame with an unsorted index. -/
theorem normalize_idempotent_on_canonical_witness :
    ∃ out, prepare_data
        ⟨["Close", "Open", "High", "Low", "Volume"], ["2023-01-04", "2023-01-03"],
         [[.n 2, .n 1, .n 3, .n 1, .n 50], [.n 3, .n 2, .n 4, .n 2, .n 60]], false⟩ = .ok out ∧
      prepare_data out = .ok out :=
  normalize_idempotent_on_canonical
    ⟨["Close", "Open", "High", "Low", "Volume"], ["2023-01-04", "2023-01-03"],
     [[.n 2, .n 1, .n 3, .n 1, .n 50], [.n 3, .n 2, .n 4, .n 2, .n 60]], false⟩
    (by decide) (by decide)

/-! ### C8: render falls back to the manual plot when the delegate raises -/

theorem rowSegs_ok {d : DataFrame} {row : List Val} (i : Nat)
    (h : rowOHLCOkB d row = true) :
    ∃ o c : Rat, ∃ lo hi : Val,
      getCellE d row "Open" = .ok (.n o) ∧ getCellE d row "Close" = .ok (.n c) ∧
      getCellE d row "Low" = .ok lo ∧ getCellE d row "High" = .ok hi ∧
      rowSegs d i row = .ok
        [⟨i, lo, hi, "k", (8 : Rat) / 10⟩,
         ⟨i, .n o, .n c, if o ≤ c then "r" else "g", 3⟩] := by
  unfold rowOHLCOkB at h
  simp only [Bool.and_eq_true] at h
  obtain ⟨⟨⟨ho, hc⟩, hlo⟩, hhi⟩ := h
  cases ho2 : getCellE d row "Open" with
  | error e => rw [ho2] at ho; cases ho
  | ok vo =>
    cases vo with
    | s v => rw [ho2] at ho; cases ho
    | n o =>
      cases hc2 : getCellE d row "Close" with
      | error e => rw [hc2] at hc; cases hc
      | ok vc =>
        cases vc with
        | s v => rw [hc2] at hc; cases hc
        | n c =>
          cases hlo2 : getCellE d row "Low" with
          | error e => rw [hlo2] at hlo; cases hlo
          | ok lo =>
            cases hhi2 : getCellE d row "High" with
            | error e => rw [hhi2] at hhi; cases hhi
            | ok hi =>
              refine ⟨o, c, lo, hi, rfl, rfl, rfl, rfl, ?_⟩
              unfold rowSegs
              rw [hc2, ho2, hlo2, hhi2]
              by_cases hoc : o ≤ c
              · simp [valGeE, bind_ok_E, pure_E, hoc]
              · simp [valGeE, bind_ok_E, pure_E, hoc]

theorem flatten_length_two {α : Type} [Inhabited α] :
    ∀ {ls : List (List α)}, (∀ ys ∈ ls, ys.length = 2) →
      ls.flatten.length = 2 * ls.length ∧
      ∀ i, i < ls.length →
        ls.flatten.getD (2 * i) default = (ls.getD i []).getD 0 default ∧
        ls.flatten.getD (2 * i + 1) default = (ls.getD i []).getD 1 default
  | [], _ => ⟨rfl, fun i hi => absurd hi (Nat.not_lt_zero i)⟩
  | ys :: ls, h => by
    have hys : ys.length = 2 := h ys (List.mem_cons_self ys ls)
    obtain ⟨hlen, hidx⟩ :=
      @flatten_length_two _ _ ls (fun y hy => h y (List.mem_cons_of_mem ys hy))
    constructor
    · simp only [List.flatten_cons, List.length_append, hlen, hys, List.length_cons]
      omega
    · intro i hi
      cases i with
      | zero =>
        simp only [Nat.mul_zero, List.flatten_cons, List.getD_cons_zero]
        constructor
        · rw [List.getD_append _ _ _ _ (by omega)]
        · rw [List.getD_append _ _ _ _ (by omega)]
      | succ j =>
        have hj : j < ls.length := by
          simp only [List.length_cons] at hi
          omega
        have h1 : 2 * (j + 1) = ys.length + 2 * j := by omega
        have h2 : 2 * (j + 1) + 1 = ys.length + (2 * j + 1) := by omega
        simp only [List.flatten_cons, List.getD_cons_succ]
        constructor
        · rw [h1, List.getD_append_right _ _ _ _ (by omega), Nat.add_sub_cancel_left]
          exact (hidx j hj).1
        · rw [h2, List.getD_append_right _ _ _ _ (by omega), Nat.add_sub_cancel_left]
          exact (hidx j hj).2

theorem fallback_plot_ok (cd : DataFrame) (t : String) (volume : Bool)
    (hrows : ∀ row ∈ cd.rows, rowOHLCOkB cd row = true)
    (hvol : volume = true → "Volume" ∈ cd.cols)
    (hdt : cd.dtindex = true) :
    ∃ fb : FallbackFig,
      fallback_plot cd t volume = .ok fb ∧
      fb.title = t ∧
      fb.volBars = (if volume then some (getColVals cd "Volume") else none) ∧
      fb.segs.length = 2 * cd.rows.length ∧
      (∀ i, i < cd.rows.length → ∃ o c : Rat, ∃ lo hi : Val,
        getCellE cd (cd.rows.getD i []) "Open" = .ok (.n o) ∧
        getCellE cd (cd.rows.getD i []) "Close" = .ok (.n c) ∧
        getCellE cd (cd.rows.getD i []) "Low" = .ok lo ∧
        getCellE cd (cd.rows.getD i []) "High" = .ok hi ∧
        fb.segs.getD (2 * i) default = ⟨i, lo, hi, "k", (8 : Rat) / 10⟩ ∧
        fb.segs.getD (2 * i + 1) default =
          ⟨i, .n o, .n c, if o ≤ c then "r" else "g", 3⟩) := by
  have hmap : ∀ p ∈ cd.rows.enum, ∃ ys, rowSegs cd p.1 p.2 = .ok ys := by
    rw [List.forall_mem_enum]
    intro i hi
    obtain ⟨o, c, lo, hi2, _, _, _, _, hseg⟩ :=
      rowSegs_ok i (hrows _ (List.getElem_mem hi))
    exact ⟨_, hseg⟩
  obtain ⟨segLists, hsl, hfa⟩ := mapM_except_exists hmap
  have hlen : cd.rows.enum.length = segLists.length := hfa.length_eq
  have helen : cd.rows.enum.length = cd.rows.length := List.enum_length
  have hseg2 : ∀ i (hi : i < cd.rows.length), ∃ o c : Rat, ∃ lo hi2 : Val,
      getCellE cd (cd.rows.getD i []) "Open" = .ok (.n o) ∧
      getCellE cd (cd.rows.getD i []) "Close" = .ok (.n c) ∧
      getCellE cd (cd.rows.getD i []) "Low" = .ok lo ∧
      getCellE cd (cd.rows.getD i []) "High" = .ok hi2 ∧
      segLists.getD i [] =
        [⟨i, lo, hi2, "k", (8 : Rat) / 10⟩,
         ⟨i, .n o, .n c, if o ≤ c then "r" else "g", 3⟩] := by
    intro i hi
    have hi1 : i < cd.rows.enum.length := by omega
    have hi2 : i < segLists.length := by omega
    have hget := hfa.get hi1 hi2
    have henum : cd.rows.enum.get ⟨i, hi1⟩ = (i, cd.rows[i]) := by
      simp [List.getElem_enum]
    rw [henum] at hget
    have hgd : cd.rows.getD i [] = cd.rows[i] := List.getD_eq_getElem _ _ hi
    obtain ⟨o, c, lo, hi3, ho, hc, hlo, hhi, hseg⟩ :=
      rowSegs_ok i (hrows _ (List.getElem_mem hi))
    rw [hseg] at hget
    have hys : segLists.get ⟨i, hi2⟩ =
        [⟨i, lo, hi3, "k", (8 : Rat) / 10⟩,
         ⟨i, .n o, .n c, if o ≤ c then "r" else "g", 3⟩] := by
      injection hget with h
      exact h.symm
    refine ⟨o, c, lo, hi3, hgd ▸ ho, hgd ▸ hc, hgd ▸ hlo, hgd ▸ hhi, ?_⟩
    rw [List.getD_eq_getElem _ _ hi2]
    exact hys
  have hall2 : ∀ ys ∈ segLists, ys.length = 2 := by
    intro ys hys
    obtain ⟨i, hi, rfl⟩ := List.mem_iff_getElem.mp hys
    obtain ⟨o, c, lo, hi3, _, _, _, _, hseq⟩ := hseg2 i (by omega)
    rw [List.getD_eq_getElem _ _ hi] at hseq
    rw [hseq]
    rfl
  obtain ⟨hflen, hfidx⟩ := flatten_length_two hall2
  have hlab : (tickIdxs cd.rows.length (max 1 (cd.rows.length / 10))).mapM
      (fun i => strftimeE cd.dtindex (cd.index.getD i "")) =
      .ok ((tickIdxs cd.rows.length (max 1 (cd.rows.length / 10))).map
        (fun i => cd.index.getD i "")) :=
    mapM_except_of_forall (fun x _ => by rw [hdt]; rfl)
  have hfb : fallback_plot cd t volume =
      .ok ⟨t, segLists.flatten,
        (tickIdxs cd.rows.length (max 1 (cd.rows.length / 10))).map
          (fun i => cd.index.getD i ""),
        if volume then some (getColVals cd "Volume") else none⟩ := by
    unfold fallback_plot
    rw [hsl, bind_ok_E, hlab, bind_ok_E]
    cases hv : volume with
    | false => rfl
    | true =>
      simp only [pure_E, bind_ok_E, eq_self_iff_true, if_true]
      rw [if_pos (hvol hv)]
  refine ⟨_, hfb, rfl, rfl, ?_, ?_⟩
  · show segLists.flatten.length = 2 * cd.rows.length
    omega
  · intro i hi
    obtain ⟨o, c, lo, hi3, ho, hc, hlo, hhi, hseq⟩ := hseg2 i hi
    refine ⟨o, c, lo, hi3, ho, hc, hlo, hhi, ?_, ?_⟩
    · have := (hfidx i (by omega)).1
      rw [hseq] at this
      simpa using this
    · have := (hfidx i (by omega)).2
      rw [hseq] at this
      simpa using this

/-- C8: whenever the normalized frame is well-formed for the manual
renderer (numeric Open/Close cells, Volume present when requested, a
datetime-typed index so the tick-label `strftime` calls succeed) and the
mplfinance delegate raises, `generate_chart` does not propagate the
delegate's error: it returns a figure drawn by the manual fallback, which
contains, for each row, a thin black segment spanning Low to High and a
width-3 segment spanning Open to Close colored red when Close ≥ Open and
green otherwise, plus the Volume column as an optional volume-bar
subplot. -/
theorem render_falls_back_when_delegate_raises
    (mpf : DataFrame → MpfParams → Except String Unit)
    (df cd : DataFrame) (chart_type : String) (t : String) (volume : Bool)
    (style : String) (save_path : Option String) (extra : List (String × String))
    (msg : String)
    (hprep : prepare_data df = .ok cd)
    (hmpf : mpf cd (mkParams chart_type volume style t extra) = .error msg)
    (hrows : ∀ row ∈ cd.rows, rowOHLCOkB cd row = true)
    (hvol : volume = true → "Volume" ∈ cd.cols)
    (hdt : cd.dtindex = true) :
    ∃ fb : FallbackFig,
      generate_chart mpf df chart_type (some t) volume style save_path extra =
        .ok (Figure.fallback fb,
          match save_path with
          | some p => if pyTruthyS p then some p else none
          | none => none) ∧
      fb.title = t ∧
      fb.volBars = (if volume then some (getColVals cd "Volume") else none) ∧
      fb.segs.length = 2 * cd.rows.length ∧
      (∀ i, i < cd.rows.length → ∃ o c : Rat, ∃ lo hi : Val,
        getCellE cd (cd.rows.getD i []) "Open" = .ok (.n o) ∧
        getCellE cd (cd.rows.getD i []) "Close" = .ok (.n c) ∧
        getCellE cd (cd.rows.getD i []) "Low" = .ok lo ∧
        getCellE cd (cd.rows.getD i []) "High" = .ok hi ∧
        fb.segs.getD (2 * i) default = ⟨i, lo, hi, "k", (8 : Rat) / 10⟩ ∧
        fb.segs.getD (2 * i + 1) default =
          ⟨i, .n o, .n c, if o ≤ c then "r" else "g", 3⟩) := by
  obtain ⟨fb, hfb, ht, hvb, hlen, hidx⟩ := fallback_plot_ok cd t volume hrows hvol hdt
  refine ⟨fb, ?_, ht, hvb, hlen, hidx⟩
  unfold generate_chart
  rw [hprep, bind_ok_E, show deriveTitle (some t) df cd = .ok t from rfl, bind_ok_E]
  simp only [pure_E, bind_ok_E, hmpf, hfb]

theorem generate_chart_total (mpf : DataFrame → MpfParams → Except String Unit)
    (df cd : DataFrame) (ct t : String) (vol : Bool) (style : String)
    (sp : Option String) (extra : List (String × String))
    (hprep : prepare_data df = .ok cd)
    (hterm : deriveTitle none df cd = .ok t)
    (hrows : ∀ row ∈ cd.rows, rowOHLCOkB cd row = true)
    (hvol : vol = true → "Volume" ∈ cd.cols)
    (hdt : cd.dtindex = true) :
    ∃ fig, generate_chart mpf df ct none vol style sp extra =
      .ok (fig, match sp with
        | some p => if pyTruthyS p then some p else none
        | none => none) := by
  cases hm : mpf cd (mkParams ct vol style t extra) with
  | ok u =>
    refine ⟨Figure.primary cd (mkParams ct vol style t extra), ?_⟩
    unfold generate_chart
    rw [hprep, bind_ok_E, hterm, bind_ok_E]
    simp only [pure_E, bind_ok_E, hm]
  | error msg =>
    obtain ⟨fb, hfb, _⟩ := fallback_plot_ok cd t vol hrows hvol hdt
    refine ⟨Figure.fallback fb, ?_⟩
    unfold generate_chart
    rw [hprep, bind_ok_E, hterm, bind_ok_E]
    simp only [pure_E, bind_ok_E, hm, hfb]

/-- Witness for C8: a delegate that always raises on a one-row frame; the
render call returns a fallback figure and the requested save path. -/
theorem render_falls_back_when_delegate_raises_witness :
    ∃ fb : FallbackFig,
      generate_chart (fun _ _ => .error "font error")
        ⟨["trade_date", "open", "high", "low", "close", "vol"], ["0"],
         [[.s "20230104", .n 1, .n 3, .n 1, .n 2, .n 10]], false⟩
        "candle" (some "demo") true "yahoo" (some "stock_charts/demo.png") [] =
      .ok (Figure.fallback fb, some "stock_charts/demo.png") := by
  obtain ⟨fb, h1, _⟩ := render_falls_back_when_delegate_raises
    (fun _ _ => .error "font error")
    ⟨["trade_date", "open", "high", "low", "close", "vol"], ["0"],
     [[.s "20230104", .n 1, .n 3, .n 1, .n 2, .n 10]], false⟩
    ⟨["trade_date", "Open", "High", "Low", "Close", "Volume"], ["2023-01-04"],
     [[.s "20230104", .n 1, .n 3, .n 1, .n 2, .n 10]], true⟩
    "candle" "demo" true "yahoo" (some "stock_charts/demo.png") [] "font error"
    (by rfl) (by rfl) (by decide) (by decide) (by rfl)
  exact ⟨fb, h1⟩


/-! ### C5: per-item failures are recorded, successes and failures in input order -/

/-- C5: for the batch call `render_many(["A","B"], ["candle","line"])` on
any environment where symbol `A` resolves (to `A1.SZ`, with one remote row)
and symbol `B` fails to resolve, and any behavior of the charting delegate,
the result list contains exactly two success entries for `A` followed by
exactly two `{symbol, chart_type, error}` entries for `B` (one per chart
type), in input order; `B`'s failures never abort the batch. -/
theorem batch_records_successes_and_failures_in_order
    (rm : Remote) (mpf : DataFrame → MpfParams → Except String Unit)
    (hA : get_stock_code_by_name rm.stock_basic_all "A" = .ok "A1.SZ")
    (hB : get_stock_code_by_name rm.stock_basic_all "B" = .error (.notFound "B"))
    (htoday : rm.today = "20251011")
    (hrows : rm.daily "A1.SZ" "20100101" "20251011" =
      [⟨"A1.SZ", "20230103", 1, 3, 1, 2, 1, 0, 0, 10, 100⟩]) :
    generate_multiple_charts rm mpf [.name "A", .name "B"] ["candle", "line"]
        "stock_charts" [] =
      [.success (some "A") "candle" 1 "stock_charts/A_candle_20100101_20251011.png",
       .success (some "A") "line" 1 "stock_charts/A_line_20100101_20251011.png",
       .failure (some "B") "candle" (.notFound "B"),
       .failure (some "B") "line" (.notFound "B")] := by
  have hresA : resolveArg rm (some "A") none = .ok "A1.SZ" := by
    unfold resolveArg
    rw [if_pos (by decide)]
    exact hA
  have hresB : resolveArg rm (some "B") none = .error (.notFound "B") := by
    unfold resolveArg
    rw [if_pos (by decide)]
    exact hB
  have hfetchA : (get_stock_data rm (some "A") none none none).1 =
      .ok [⟨⟨"A1.SZ", "20230103", 1, 3, 1, 2, 1, 0, 0, 10, 100⟩, some "A"⟩] := by
    unfold get_stock_data
    simp only [pyDefault, htoday, hresA, hrows]
    rfl
  have hfetchB : (get_stock_data rm (some "B") none none none).1 =
      .error (.notFound "B") := by
    unfold get_stock_data
    simp only [hresB]
    rfl
  have hBany : ∀ ct : String, generate_chart_from_stock rm mpf (some "B") none none none
      ct none true "yahoo" "stock_charts" none [] = .error (.notFound "B") := by
    intro ct
    unfold generate_chart_from_stock
    rw [hfetchB, bind_error_E]
  have hAc : generate_chart_from_stock rm mpf (some "A") none none none "candle" none true
      "yahoo" "stock_charts" none [] =
      (generate_chart mpf
        (toDf [⟨⟨"A1.SZ", "20230103", 1, 3, 1, 2, 1, 0, 0, 10, 100⟩, some "A"⟩])
        "candle" none true "yahoo"
        (some "stock_charts/A_candle_20100101_20251011.png") []) >>= (fun fs =>
          pure (some fs.1,
            [⟨⟨"A1.SZ", "20230103", 1, 3, 1, 2, 1, 0, 0, 10, 100⟩, some "A"⟩], fs.2)) := by
    unfold generate_chart_from_stock
    rw [htoday, hfetchA, bind_ok_E]
    rfl
  have hAl : generate_chart_from_stock rm mpf (some "A") none none none "line" none true
      "yahoo" "stock_charts" none [] =
      (generate_chart mpf
        (toDf [⟨⟨"A1.SZ", "20230103", 1, 3, 1, 2, 1, 0, 0, 10, 100⟩, some "A"⟩])
        "line" none true "yahoo"
        (some "stock_charts/A_line_20100101_20251011.png") []) >>= (fun fs =>
          pure (some fs.1,
            [⟨⟨"A1.SZ", "20230103", 1, 3, 1, 2, 1, 0, 0, 10, 100⟩, some "A"⟩], fs.2)) := by
    unfold generate_chart_from_stock
    rw [htoday, hfetchA, bind_ok_E]
    rfl
  obtain ⟨figC, hgcC⟩ := generate_chart_total mpf
    (toDf [⟨⟨"A1.SZ", "20230103", 1, 3, 1, 2, 1, 0, 0, 10, 100⟩, some "A"⟩])
    ⟨["ts_code", "trade_date", "Open", "High", "Low", "Close", "pre_close", "change",
      "pct_chg", "Volume", "amount", "stock_name"], ["2023-01-03"],
     [[.s "A1.SZ", .s "20230103", .n 1, .n 3, .n 1, .n 2, .n 1, .n 0, .n 0, .n 10, .n 100,
       .s "A"]], true⟩
    "candle" "A K线图 (2023-01-03 至 2023-01-03)" true "yahoo"
    (some "stock_charts/A_candle_20100101_20251011.png") []
    (by rfl) (by rfl) (by decide) (by decide) (by rfl)
  obtain ⟨figL, hgcL⟩ := generate_chart_total mpf
    (toDf [⟨⟨"A1.SZ", "20230103", 1, 3, 1, 2, 1, 0, 0, 10, 100⟩, some "A"⟩])
    ⟨["ts_code", "trade_date", "Open", "High", "Low", "Close", "pre_close", "change",
      "pct_chg", "Volume", "amount", "stock_name"], ["2023-01-03"],
     [[.s "A1.SZ", .s "20230103", .n 1, .n 3, .n 1, .n 2, .n 1, .n 0, .n 0, .n 10, .n 100,
       .s "A"]], true⟩
    "line" "A K线图 (2023-01-03 至 2023-01-03)" true "yahoo"
    (some "stock_charts/A_line_20100101_20251011.png") []
    (by rfl) (by rfl) (by decide) (by decide) (by rfl)
  have hAc2 : generate_chart_from_stock rm mpf (some "A") none none none "candle" none true
      "yahoo" "stock_charts" none [] =
      .ok (some figC,
        [⟨⟨"A1.SZ", "20230103", 1, 3, 1, 2, 1, 0, 0, 10, 100⟩, some "A"⟩],
        some "stock_charts/A_candle_20100101_20251011.png") := by
    rw [hAc, hgcC]
    rfl
  have hAl2 : generate_chart_from_stock rm mpf (some "A") none none none "line" none true
      "yahoo" "stock_charts" none [] =
      .ok (some figL,
        [⟨⟨"A1.SZ", "20230103", 1, 3, 1, 2, 1, 0, 0, 10, 100⟩, some "A"⟩],
        some "stock_charts/A_line_20100101_20251011.png") := by
    rw [hAl, hgcL]
    rfl
  unfold generate_multiple_charts
  simp only [List.flatMap_cons, List.flatMap_nil, List.filterMap_cons, List.filterMap_nil,
    itemFields, hAc2, hAl2, hBany "candle", hBany "line"]
  rfl

/-- Witness for C5: a concrete directory containing only `A`, a remote with
one daily row, and a delegate that always raises (so even the fallback path
yields the two success entries). -/
theorem batch_records_successes_and_failures_in_order_witness :
    generate_multiple_charts
        ⟨[⟨"A1.SZ", "A1", "A", "", "", ""⟩],
         fun _ _ _ => [⟨"A1.SZ", "20230103", 1, 3, 1, 2, 1, 0, 0, 10, 100⟩],
         fun _ => .ok ["A"], "20251011"⟩
        (fun _ _ => .error "font error") [.name "A", .name "B"] ["candle", "line"]
        "stock_charts" [] =
      [.success (some "A") "candle" 1 "stock_charts/A_candle_20100101_20251011.png",
       .success (some "A") "line" 1 "stock_charts/A_line_20100101_20251011.png",
       .failure (some "B") "candle" (.notFound "B"),
       .failure (some "B") "line" (.notFound "B")] :=
  batch_records_successes_and_failures_in_order
    ⟨[⟨"A1.SZ", "A1", "A", "", "", ""⟩],
     fun _ _ _ => [⟨"A1.SZ", "20230103", 1, 3, 1, 2, 1, 0, 0, 10, 100⟩],
     fun _ => .ok ["A"], "20251011"⟩
    (fun _ _ => .error "font error") (by rfl) (by rfl) (by rfl) (by rfl)
